import Mathlib

/-!
Verification of the `note-sequence-selector` custom element (revision in
`src/unnamed/part_001`, the superseding revision of the component).

The component is shallowly embedded as a pure state machine over
`SelectorState`.  DOM mutations that the browser turns into synchronous
custom-element reactions are modelled explicitly: `setAttribute` /
`removeAttribute` on the observed attribute invoke the element's
`attributeChangedCallback` (removal only when the attribute was present,
setting always, even to an identical value — which is why the callback
carries the `oldValue === newValue` guard).  The resulting recursion
(property setter → attribute reflection → callback → property setter) is
bounded in the real component; it is made structural here with a fuel
argument whose exhaustion branch is never reached from the entry points.

The catalog (`@musodojo/music-theory-data`) is an external immutable data
module; it is passed in as an explicit `Catalog` value, with its flattened
map `allNoteSequenceThemes` derived from the grouped map as the data module
guarantees.
-/

/-- The immutable record describing one note-sequence theme, with the fields
read by the component (`primaryName`, `names`, `intervals`, `type`,
`exampleNotes`, `characteristics`, `patternShort`, `pattern`, `degrees`). -/
structure NoteSequenceTheme where
  primaryName : String
  names : List String
  intervals : List String
  type : List String
  characteristics : List String
  pattern : List Nat
  patternShort : List String
  degrees : List String
  exampleNotes : List String
deriving DecidableEq

/-- Display metadata for one theme group (`noteSequenceThemeGroupsMetadata`). -/
structure GroupMetadata where
  displayName : String
  description : String
deriving DecidableEq

/-- One group of the catalog: its key, its metadata and its themes in the
declared order (one entry of `noteSequenceThemeGroupsMetadata` together with
the matching entry of `noteSequenceThemes`). -/
structure NoteSequenceThemeGroup where
  groupKey : String
  metadata : GroupMetadata
  themes : List (String × NoteSequenceTheme)
deriving DecidableEq

/-- The external catalog: the grouped mapping, in declared iteration order. -/
structure Catalog where
  groups : List NoteSequenceThemeGroup
deriving DecidableEq

/-- `allNoteSequenceThemes`: the flattened theme map across all groups, as the
data module derives it from the grouped map.  JavaScript object indexing is
association-list lookup on the first matching key. -/
def allNoteSequenceThemes (c : Catalog) : List (String × NoteSequenceTheme) :=
  (c.groups.map NoteSequenceThemeGroup.themes).flatten

/-- Well-formedness of the external catalog: theme keys are unique across all
groups and are genuine (nonempty) identifiers. -/
def CatalogWF (c : Catalog) : Prop :=
  ((allNoteSequenceThemes c).map Prod.fst).Nodup ∧
  ∀ k ∈ (allNoteSequenceThemes c).map Prod.fst, k ≠ ""

/-- The observable state of one `NoteSequenceSelector` element:
its two private selection fields, the host-observable
`selected-note-sequence-theme-key` attribute, the trigger button's text,
the list of dispatched `note-sequence-selected` event payloads, the counts of
`console.warn` / `console.error` diagnostics, how often
`#populateNoteSequences` ran, whether the `connectedCallback` listeners are
bound, the presence of the four required shadow-DOM nodes, the checkbox state,
the `hidden`-class flag of every `.more-info-div` panel in document order, and
whether the dialog is open. -/
structure SelectorState where
  selectedNoteSequenceThemeKey : Option String
  selectedNoteSequenceTheme : Option NoteSequenceTheme
  attr : Option String
  buttonText : String
  events : List (String × NoteSequenceTheme)
  warnings : Nat
  errors : Nat
  populateCount : Nat
  listenersBound : Bool
  hasButton : Bool
  hasDialog : Bool
  hasContainer : Bool
  hasCheckbox : Bool
  checkboxChecked : Bool
  moreInfoHidden : List Bool
  dialogOpen : Bool
deriving DecidableEq

/-- State of a freshly constructed element: the constructor clones the
template, so all four required nodes are found; both selection fields are
null, no attribute, the template's button label, nothing dispatched. -/
def newNoteSequenceSelector : SelectorState :=
  { selectedNoteSequenceThemeKey := none
    selectedNoteSequenceTheme := none
    attr := none
    buttonText := "Select Sequence"
    events := []
    warnings := 0
    errors := 0
    populateCount := 0
    listenersBound := false
    hasButton := true
    hasDialog := true
    hasContainer := true
    hasCheckbox := true
    checkboxChecked := false
    moreInfoHidden := []
    dialogOpen := false }

/-- `#updateNoteSequenceSelectorButtonText`: the trigger label becomes the
selected theme's `primaryName`, or the fixed placeholder when none. -/
def updateNoteSequenceSelectorButtonText (s : SelectorState) : SelectorState :=
  { s with buttonText :=
      match s.selectedNoteSequenceTheme with
      | some t => t.primaryName
      | none => "Select Sequence" }

/-- `#dispatchNoteSequenceSelectedEvent`: dispatches the event only when both
the key and the theme are non-null, otherwise `console.warn`s. -/
def dispatchNoteSequenceSelectedEvent (s : SelectorState) : SelectorState :=
  match s.selectedNoteSequenceThemeKey, s.selectedNoteSequenceTheme with
  | some k, some t => { s with events := s.events ++ [(k, t)] }
  | _, _ => { s with warnings := s.warnings + 1 }

/-- The lookup the property setter performs:
`newNoteSequenceThemeKey ? allNoteSequenceThemes[newNoteSequenceThemeKey] : null`.
JavaScript string truthiness makes the empty string, like `null`, skip the
lookup; an absent key yields `undefined`, modelled as `none`. -/
def themeForKey (c : Catalog) : Option String → Option NoteSequenceTheme
  | none => none
  | some k => if k = "" then none else List.lookup k (allNoteSequenceThemes c)

/-- DOM `setAttribute` on the observed attribute: stores the value and
synchronously fires the element's `attributeChangedCallback` (the `cb`
argument) with the old and new values — also when they are identical. -/
def setAttributeWith (cb : SelectorState → Option String → Option String → SelectorState)
    (s : SelectorState) (v : String) : SelectorState :=
  cb { s with attr := some v } s.attr (some v)

/-- DOM `removeAttribute` on the observed attribute: a no-op when the
attribute is absent, otherwise removes it and synchronously fires the
element's `attributeChangedCallback` with `newValue = null`. -/
def removeAttributeWith (cb : SelectorState → Option String → Option String → SelectorState)
    (s : SelectorState) : SelectorState :=
  match s.attr with
  | none => s
  | some old => cb { s with attr := none } (some old) none

/-- `#updateSelectedNoteSequenceAttribute`: reflects the stored key onto the
host attribute — `setAttribute` when the key is truthy (non-null and
nonempty), `removeAttribute` otherwise. -/
def updateSelectedNoteSequenceAttributeWith
    (cb : SelectorState → Option String → Option String → SelectorState)
    (s : SelectorState) : SelectorState :=
  match s.selectedNoteSequenceThemeKey with
  | some k => if k = "" then removeAttributeWith cb s else setAttributeWith cb s k
  | none => removeAttributeWith cb s

/-- The `selectedNoteSequenceThemeKey` property setter: stores the key, derives
the theme by (truthy-guarded) catalog lookup, updates the trigger label and
reflects onto the attribute.  It dispatches no event itself — the
`attributeChangedCallback` (passed in as `cb`) does. -/
def setSelectedNoteSequenceThemeKeyWith (c : Catalog)
    (cb : SelectorState → Option String → Option String → SelectorState)
    (s : SelectorState) (k : Option String) : SelectorState :=
  updateSelectedNoteSequenceAttributeWith cb
    (updateNoteSequenceSelectorButtonText
      { s with selectedNoteSequenceThemeKey := k
               selectedNoteSequenceTheme := themeForKey c k })

/-- `attributeChangedCallback` for the (single) observed attribute
`selected-note-sequence-theme-key`: returns unchanged when the value did not
actually change, otherwise assigns the property setter with the new value and
then dispatches the selection event.  The real re-entrance is bounded by the
`oldValue === newValue` guard; `fuel` makes the recursion structural and is
never exhausted from the entry points below. -/
def attributeChangedCallbackF (c : Catalog) :
    Nat → SelectorState → Option String → Option String → SelectorState
  | 0, s, _, _ => s
  | fuel + 1, s, oldValue, newValue =>
    if oldValue = newValue then s
    else
      dispatchNoteSequenceSelectedEvent
        (setSelectedNoteSequenceThemeKeyWith c
          (attributeChangedCallbackF c fuel) s newValue)

/-- The public `selectedNoteSequenceThemeKey` property setter, with the
browser-invoked callback wired to the attribute mutations it performs. -/
def setSelectedNoteSequenceThemeKey (c : Catalog) (s : SelectorState)
    (k : Option String) : SelectorState :=
  setSelectedNoteSequenceThemeKeyWith c (attributeChangedCallbackF c 4) s k

/-- The public `selectedNoteSequenceThemeKey` property getter. -/
def getSelectedNoteSequenceThemeKey (s : SelectorState) : Option String :=
  s.selectedNoteSequenceThemeKey

/-- The public read-only `selectedNoteSequenceTheme` property getter. -/
def getSelectedNoteSequenceTheme (s : SelectorState) : Option NoteSequenceTheme :=
  s.selectedNoteSequenceTheme

/-- A host script writing the observed attribute from outside
(`el.setAttribute("selected-note-sequence-theme-key", v)`). -/
def hostSetAttribute (c : Catalog) (s : SelectorState) (v : String) : SelectorState :=
  setAttributeWith (attributeChangedCallbackF c 4) s v

/-- A host script removing the observed attribute from outside. -/
def hostRemoveAttribute (c : Catalog) (s : SelectorState) : SelectorState :=
  removeAttributeWith (attributeChangedCallbackF c 4) s

/-- `dialog.close()`. -/
def closeDialog (s : SelectorState) : SelectorState :=
  { s with dialogOpen := false }

/-- The click listener of one `.note-sequence-option` entry built for catalog
entry `(k, t)`: assigns the two private fields directly from the captured
entry, updates the label, reflects the attribute (the callback dispatches the
event) and closes the dialog. -/
def noteSequenceOptionClick (c : Catalog) (s : SelectorState)
    (k : String) (t : NoteSequenceTheme) : SelectorState :=
  closeDialog
    (updateSelectedNoteSequenceAttributeWith (attributeChangedCallbackF c 4)
      (updateNoteSequenceSelectorButtonText
        { s with selectedNoteSequenceThemeKey := some k
                 selectedNoteSequenceTheme := some t }))

/-- `#populateNoteSequences`: guards on the list container, clears it and
rebuilds one group block per group (one `more-info-div` for the group
description) holding one entry per theme (one `more-info-div` each), every
panel created with the `hidden` class. -/
def populateNoteSequences (c : Catalog) (s : SelectorState) : SelectorState :=
  if s.hasContainer then
    { s with
        populateCount := s.populateCount + 1
        moreInfoHidden :=
          (c.groups.map (fun g => true :: g.themes.map (fun _ => true))).flatten }
  else s

/-- `connectedCallback`: when all four required shadow-DOM nodes were found,
binds the listeners under the abort scope, runs the one-time list build and
primes the label and the attribute from current state; otherwise only
`console.error`s and binds nothing. -/
def connectedCallback (c : Catalog) (s : SelectorState) : SelectorState :=
  if s.hasButton && s.hasDialog && s.hasContainer && s.hasCheckbox then
    updateSelectedNoteSequenceAttributeWith (attributeChangedCallbackF c 4)
      (updateNoteSequenceSelectorButtonText
        (populateNoteSequences c { s with listenersBound := true }))
  else
    { s with errors := s.errors + 1 }

/-- `#updateMoreInfoVisibility`: for every `.more-info-div` panel, sets the
`hidden` class to the negation of the checkbox state
(`el.classList.toggle("hidden", !checked)`). -/
def updateMoreInfoVisibility (s : SelectorState) : SelectorState :=
  { s with moreInfoHidden := s.moreInfoHidden.map (fun _ => !s.checkboxChecked) }

/-- The checkbox `change` listener: the user flips the checkbox to `checked`
and the listener broadcasts the new value to every panel. -/
def toggleMoreInfoChange (s : SelectorState) (checked : Bool) : SelectorState :=
  updateMoreInfoVisibility { s with checkboxChecked := checked }

/-- `setRandomNoteSequence`: indexes `Object.keys(allNoteSequenceThemes)` at
`randomIndex = Math.floor(Math.random() * length)` (the sampled index is the
parameter) and assigns the property setter with the chosen key. -/
def setRandomNoteSequence (c : Catalog) (s : SelectorState) (randomIndex : Nat) :
    SelectorState :=
  setSelectedNoteSequenceThemeKey c s
    (((allNoteSequenceThemes c).map Prod.fst).get? randomIndex)

/-- The SelectionState invariant of the specification: the key is non-null
exactly when the theme is non-null, and then the theme is the catalog's
record for the key. -/
def SelectionInvariant (c : Catalog) (s : SelectorState) : Prop :=
  match s.selectedNoteSequenceThemeKey, s.selectedNoteSequenceTheme with
  | none, none => True
  | some k, some t => List.lookup k (allNoteSequenceThemes c) = some t
  | _, _ => False

/-- States reachable from construction through the setter paths when every
supplied key is a catalog key or null: property assignment, external
attribute write/removal, entry click, random selection, attach, toggle. -/
inductive ReachableValid (c : Catalog) : SelectorState → Prop
  | init : ReachableValid c newNoteSequenceSelector
  | propSetValid (s : SelectorState) (k : String) (t : NoteSequenceTheme) :
      ReachableValid c s → List.lookup k (allNoteSequenceThemes c) = some t →
      ReachableValid c (setSelectedNoteSequenceThemeKey c s (some k))
  | propClear (s : SelectorState) :
      ReachableValid c s →
      ReachableValid c (setSelectedNoteSequenceThemeKey c s none)
  | attrSetValid (s : SelectorState) (k : String) (t : NoteSequenceTheme) :
      ReachableValid c s → List.lookup k (allNoteSequenceThemes c) = some t →
      ReachableValid c (hostSetAttribute c s k)
  | attrRemove (s : SelectorState) :
      ReachableValid c s → ReachableValid c (hostRemoveAttribute c s)
  | click (s : SelectorState) (k : String) (t : NoteSequenceTheme) :
      ReachableValid c s → (k, t) ∈ allNoteSequenceThemes c →
      ReachableValid c (noteSequenceOptionClick c s k t)
  | random (s : SelectorState) (i : Nat) :
      ReachableValid c s → i < (allNoteSequenceThemes c).length →
      ReachableValid c (setRandomNoteSequence c s i)
  | connect (s : SelectorState) :
      ReachableValid c s → ReachableValid c (connectedCallback c s)
  | toggle (s : SelectorState) (b : Bool) :
      ReachableValid c s → ReachableValid c (toggleMoreInfoChange s b)

/-- The concrete theme of the specification's test scenario. -/
def ionianTheme : NoteSequenceTheme :=
  { primaryName := "Ionian"
    names := ["Ionian", "Major Scale"]
    intervals := ["1", "2", "3", "4", "5", "6", "7"]
    type := ["major", "mode"]
    characteristics := ["bright"]
    pattern := [2, 2, 1, 2, 2, 2, 1]
    patternShort := ["W", "W", "H", "W", "W", "W", "H"]
    degrees := ["1", "2", "3", "4", "5", "6", "7"]
    exampleNotes := ["C", "D", "E", "F", "G", "A", "B"] }

/-- A second concrete theme, to make the sample catalog nontrivial. -/
def dorianTheme : NoteSequenceTheme :=
  { primaryName := "Dorian"
    names := ["Dorian"]
    intervals := ["1", "2", "b3", "4", "5", "6", "b7"]
    type := ["minor", "mode"]
    characteristics := ["mellow"]
    pattern := [2, 1, 2, 2, 2, 1, 2]
    patternShort := ["W", "H", "W", "W", "W", "H", "W"]
    degrees := ["1", "2", "b3", "4", "5", "6", "b7"]
    exampleNotes := ["D", "E", "F", "G", "A", "B", "C"] }

/-- A small concrete catalog in the shape of the data module, used by the
closed witnesses and counterexamples. -/
def sampleCatalog : Catalog :=
  ⟨[{ groupKey := "diatonic"
      metadata := { displayName := "Diatonic Modes"
                    description := "Seven-note modes of the major scale" }
      themes := [("ionian", ionianTheme), ("dorian", dorianTheme)] }]⟩

/-- A degraded instance whose shadow DOM lost the toggle checkbox, used as a
concrete input for the missing-structure behavior. -/
def brokenSelector : SelectorState :=
  { newNoteSequenceSelector with hasCheckbox := false }

instance (c : Catalog) : Decidable (CatalogWF c) :=
  inferInstanceAs (Decidable (((allNoteSequenceThemes c).map Prod.fst).Nodup ∧
    ∀ k ∈ (allNoteSequenceThemes c).map Prod.fst, k ≠ ""))

/-- The `oldValue === newValue` guard: a callback whose old and new values
agree changes nothing, at every fuel. -/
theorem attributeChangedCallbackF_same (c : Catalog) (f : Nat) (s : SelectorState)
    (v : Option String) : attributeChangedCallbackF c f s v v = s := by
  cases f <;> simp [attributeChangedCallbackF]

/-- A key whose lookup succeeds occurs among the keys. -/
theorem mem_keys_of_lookup {l : List (String × NoteSequenceTheme)} {k : String}
    {t : NoteSequenceTheme} (h : List.lookup k l = some t) : k ∈ l.map Prod.fst := by
  induction l with
  | nil => simp [List.lookup] at h
  | cons p tl ih =>
    obtain ⟨k1, t1⟩ := p
    by_cases hk : k = k1
    · subst hk
      simp
    · simp only [List.lookup, beq_false_of_ne hk] at h
      simp [ih h]

/-- A key among the keys has a successful lookup. -/
theorem lookup_isSome_of_mem_keys {l : List (String × NoteSequenceTheme)} {k : String}
    (h : k ∈ l.map Prod.fst) : ∃ t, List.lookup k l = some t := by
  induction l with
  | nil => simp at h
  | cons p tl ih =>
    obtain ⟨k1, t1⟩ := p
    by_cases hk : k = k1
    · exact ⟨t1, by simp [List.lookup, hk]⟩
    · simp only [List.map_cons, List.mem_cons] at h
      rcases h with h | h
      · exact absurd h hk
      · obtain ⟨t, ht⟩ := ih h
        exact ⟨t, by simp [List.lookup, beq_false_of_ne hk, ht]⟩

/-- With unique keys, looking up the key of an entry returns that entry. -/
theorem lookup_eq_of_mem_nodup {l : List (String × NoteSequenceTheme)} {k : String}
    {t : NoteSequenceTheme} (hnd : (l.map Prod.fst).Nodup) (h : (k, t) ∈ l) :
    List.lookup k l = some t := by
  induction l with
  | nil => simp at h
  | cons p tl ih =>
    obtain ⟨k1, t1⟩ := p
    simp only [List.map_cons, List.nodup_cons] at hnd
    rcases List.mem_cons.mp h with h1 | h1
    · rw [Prod.mk.injEq] at h1
      obtain ⟨rfl, rfl⟩ := h1
      simp [List.lookup]
    · have hk : k ≠ k1 := by
        rintro rfl
        exact hnd.1 (List.mem_map.mpr ⟨(k, t), h1, rfl⟩)
      simp [List.lookup, beq_false_of_ne hk, ih hnd.2 h1]

/-- Inner re-entry of the property setter from the callback: when the
attribute already holds `k`, assigning a truthy key `k` re-derives the two
fields and the label, and the reflected `setAttribute` is stopped by the
callback's guard. -/
theorem setKeyWith_some_attrEq (c : Catalog) (f : Nat) (s : SelectorState) (k : String)
    (hk : k ≠ "") (ha : s.attr = some k) :
    setSelectedNoteSequenceThemeKeyWith c (attributeChangedCallbackF c f) s (some k) =
      updateNoteSequenceSelectorButtonText
        { s with selectedNoteSequenceThemeKey := some k
                 selectedNoteSequenceTheme := themeForKey c (some k) } := by
  obtain ⟨k0, t0, a0, b0, ev, w, er, pc, lb, hb, hd, hc, hcb, chk, mih, dlg⟩ := s
  simp only [SelectorState.attr] at ha
  subst ha
  simp [setSelectedNoteSequenceThemeKeyWith, updateSelectedNoteSequenceAttributeWith,
    updateNoteSequenceSelectorButtonText, setAttributeWith, themeForKey, hk,
    attributeChangedCallbackF_same]

/-- The property setter at a truthy key `k`: both fields and the label are
set; when the attribute already held `k` the reflection is a guarded no-op,
otherwise the attribute becomes `k` and the callback re-enters once and then
dispatches. -/
theorem setKeyWith_some (c : Catalog) (f : Nat) (s : SelectorState) (k : String)
    (hk : k ≠ "") :
    setSelectedNoteSequenceThemeKeyWith c (attributeChangedCallbackF c (f + 1)) s (some k) =
      if s.attr = some k then
        updateNoteSequenceSelectorButtonText
          { s with selectedNoteSequenceThemeKey := some k
                   selectedNoteSequenceTheme := themeForKey c (some k) }
      else
        dispatchNoteSequenceSelectedEvent
          (updateNoteSequenceSelectorButtonText
            { s with selectedNoteSequenceThemeKey := some k
                     selectedNoteSequenceTheme := themeForKey c (some k)
                     attr := some k }) := by
  by_cases ha : s.attr = some k
  · rw [if_pos ha]
    exact setKeyWith_some_attrEq c (f + 1) s k hk ha
  · rw [if_neg ha]
    obtain ⟨k0, t0, a0, b0, ev, w, er, pc, lb, hb, hd, hc, hcb, chk, mih, dlg⟩ := s
    simp only [SelectorState.attr] at ha
    simp [setSelectedNoteSequenceThemeKeyWith, updateSelectedNoteSequenceAttributeWith,
      updateNoteSequenceSelectorButtonText, setAttributeWith, themeForKey, hk,
      attributeChangedCallbackF, ha, attributeChangedCallbackF_same]

/-- The property setter at `null`: clears both fields and the label; when the
attribute was present its removal re-enters the callback once, which re-clears
and then warns (no event). -/
theorem setKeyWith_none (c : Catalog) (f : Nat) (s : SelectorState) :
    setSelectedNoteSequenceThemeKeyWith c (attributeChangedCallbackF c (f + 1)) s none =
      match s.attr with
      | none =>
        { s with selectedNoteSequenceThemeKey := none
                 selectedNoteSequenceTheme := none
                 buttonText := "Select Sequence" }
      | some _ =>
        { s with selectedNoteSequenceThemeKey := none
                 selectedNoteSequenceTheme := none
                 buttonText := "Select Sequence"
                 attr := none
                 warnings := s.warnings + 1 } := by
  obtain ⟨k0, t0, a0, b0, ev, w, er, pc, lb, hb, hd, hc, hcb, chk, mih, dlg⟩ := s
  cases a0 <;>
    simp [setSelectedNoteSequenceThemeKeyWith, updateSelectedNoteSequenceAttributeWith,
      updateNoteSequenceSelectorButtonText, removeAttributeWith, themeForKey,
      attributeChangedCallbackF, dispatchNoteSequenceSelectedEvent]

/-- The property setter at the empty string: JavaScript truthiness treats it
as a clear — the theme is nulled, the label reset and the attribute removed —
but the stored key keeps the value. When the attribute was present, its
removal re-enters the callback with `null`, which overwrites the stored key
with `null` and warns. -/
theorem setKeyWith_empty (c : Catalog) (f : Nat) (s : SelectorState) :
    setSelectedNoteSequenceThemeKeyWith c (attributeChangedCallbackF c (f + 1)) s (some "") =
      match s.attr with
      | none =>
        { s with selectedNoteSequenceThemeKey := some ""
                 selectedNoteSequenceTheme := none
                 buttonText := "Select Sequence" }
      | some _ =>
        { s with selectedNoteSequenceThemeKey := none
                 selectedNoteSequenceTheme := none
                 buttonText := "Select Sequence"
                 attr := none
                 warnings := s.warnings + 1 } := by
  obtain ⟨k0, t0, a0, b0, ev, w, er, pc, lb, hb, hd, hc, hcb, chk, mih, dlg⟩ := s
  cases a0 <;>
    simp [setSelectedNoteSequenceThemeKeyWith, updateSelectedNoteSequenceAttributeWith,
      updateNoteSequenceSelectorButtonText, removeAttributeWith, themeForKey,
      attributeChangedCallbackF, dispatchNoteSequenceSelectedEvent]

/-- The public property setter at a truthy key, as a record equation. -/
theorem set_some_eq (c : Catalog) (s : SelectorState) (k : String) (hk : k ≠ "") :
    setSelectedNoteSequenceThemeKey c s (some k) =
      if s.attr = some k then
        updateNoteSequenceSelectorButtonText
          { s with selectedNoteSequenceThemeKey := some k
                   selectedNoteSequenceTheme := themeForKey c (some k) }
      else
        dispatchNoteSequenceSelectedEvent
          (updateNoteSequenceSelectorButtonText
            { s with selectedNoteSequenceThemeKey := some k
                     selectedNoteSequenceTheme := themeForKey c (some k)
                     attr := some k }) :=
  setKeyWith_some c 3 s k hk

/-- The public property setter at `null`, as a record equation. -/
theorem set_none_eq (c : Catalog) (s : SelectorState) :
    setSelectedNoteSequenceThemeKey c s none =
      match s.attr with
      | none =>
        { s with selectedNoteSequenceThemeKey := none
                 selectedNoteSequenceTheme := none
                 buttonText := "Select Sequence" }
      | some _ =>
        { s with selectedNoteSequenceThemeKey := none
                 selectedNoteSequenceTheme := none
                 buttonText := "Select Sequence"
                 attr := none
                 warnings := s.warnings + 1 } :=
  setKeyWith_none c 3 s

/-- The public property setter at the empty string, as a record equation. -/
theorem set_empty_eq (c : Catalog) (s : SelectorState) :
    setSelectedNoteSequenceThemeKey c s (some "") =
      match s.attr with
      | none =>
        { s with selectedNoteSequenceThemeKey := some ""
                 selectedNoteSequenceTheme := none
                 buttonText := "Select Sequence" }
      | some _ =>
        { s with selectedNoteSequenceThemeKey := none
                 selectedNoteSequenceTheme := none
                 buttonText := "Select Sequence"
                 attr := none
                 warnings := s.warnings + 1 } :=
  setKeyWith_empty c 3 s

/-- A host write of a nonempty value to the observed attribute: a guarded
no-op when the value is unchanged, otherwise one callback pass through the
property setter followed by one dispatch. -/
theorem hostSetAttribute_eq (c : Catalog) (s : SelectorState) (v : String) (hv : v ≠ "") :
    hostSetAttribute c s v =
      if s.attr = some v then s
      else
        dispatchNoteSequenceSelectedEvent
          (updateNoteSequenceSelectorButtonText
            { s with selectedNoteSequenceThemeKey := some v
                     selectedNoteSequenceTheme := themeForKey c (some v)
                     attr := some v }) := by
  by_cases ha : s.attr = some v
  · rw [if_pos ha]
    obtain ⟨k0, t0, a0, b0, ev, w, er, pc, lb, hb, hd, hc, hcb, chk, mih, dlg⟩ := s
    simp only [SelectorState.attr] at ha
    subst ha
    simp [hostSetAttribute, setAttributeWith, attributeChangedCallbackF_same]
  · rw [if_neg ha]
    obtain ⟨k0, t0, a0, b0, ev, w, er, pc, lb, hb, hd, hc, hcb, chk, mih, dlg⟩ := s
    simp only [SelectorState.attr] at ha
    simp [hostSetAttribute, setAttributeWith, attributeChangedCallbackF, ha,
      setSelectedNoteSequenceThemeKeyWith, updateSelectedNoteSequenceAttributeWith,
      updateNoteSequenceSelectorButtonText, themeForKey, hv,
      attributeChangedCallbackF_same]

/-- A host removal of the observed attribute: a no-op when absent, otherwise
one callback pass that clears the selection and warns. -/
theorem hostRemoveAttribute_eq (c : Catalog) (s : SelectorState) :
    hostRemoveAttribute c s =
      match s.attr with
      | none => s
      | some _ =>
        { s with selectedNoteSequenceThemeKey := none
                 selectedNoteSequenceTheme := none
                 buttonText := "Select Sequence"
                 attr := none
                 warnings := s.warnings + 1 } := by
  obtain ⟨k0, t0, a0, b0, ev, w, er, pc, lb, hb, hd, hc, hcb, chk, mih, dlg⟩ := s
  cases a0 <;>
    simp [hostRemoveAttribute, removeAttributeWith, attributeChangedCallbackF,
      setSelectedNoteSequenceThemeKeyWith, updateSelectedNoteSequenceAttributeWith,
      updateNoteSequenceSelectorButtonText, themeForKey,
      dispatchNoteSequenceSelectedEvent]

/-- An entry click for catalog entry `(k, t)` with a truthy key: both fields
are taken from the captured entry and the dialog closes; when the attribute
did not already hold `k` the reflection re-enters the setter (re-deriving the
theme by catalog lookup) and dispatches once. -/
theorem noteSequenceOptionClick_eq (c : Catalog) (s : SelectorState) (k : String)
    (t : NoteSequenceTheme) (hk : k ≠ "") :
    noteSequenceOptionClick c s k t =
      if s.attr = some k then
        { s with selectedNoteSequenceThemeKey := some k
                 selectedNoteSequenceTheme := some t
                 buttonText := t.primaryName
                 dialogOpen := false }
      else
        closeDialog
          (dispatchNoteSequenceSelectedEvent
            (updateNoteSequenceSelectorButtonText
              { s with selectedNoteSequenceThemeKey := some k
                       selectedNoteSequenceTheme := themeForKey c (some k)
                       attr := some k })) := by
  by_cases ha : s.attr = some k
  · rw [if_pos ha]
    obtain ⟨k0, t0, a0, b0, ev, w, er, pc, lb, hb, hd, hc, hcb, chk, mih, dlg⟩ := s
    simp only [SelectorState.attr] at ha
    subst ha
    simp [noteSequenceOptionClick, closeDialog, updateSelectedNoteSequenceAttributeWith,
      updateNoteSequenceSelectorButtonText, setAttributeWith, hk,
      attributeChangedCallbackF_same]
  · rw [if_neg ha]
    obtain ⟨k0, t0, a0, b0, ev, w, er, pc, lb, hb, hd, hc, hcb, chk, mih, dlg⟩ := s
    simp only [SelectorState.attr] at ha
    simp [noteSequenceOptionClick, closeDialog, updateSelectedNoteSequenceAttributeWith,
      updateNoteSequenceSelectorButtonText, setAttributeWith, hk, ha,
      attributeChangedCallbackF, setSelectedNoteSequenceThemeKeyWith, themeForKey,
      attributeChangedCallbackF_same]

/-- C1: for every key present in the flattened catalog, setting the selection
through the property setter and then reading it back yields that key and the
catalog's record for it, and the host-observable attribute equals the key. -/
theorem C1_set_then_get (c : Catalog) (s : SelectorState) (k : String)
    (t : NoteSequenceTheme) (hWF : CatalogWF c)
    (ht : List.lookup k (allNoteSequenceThemes c) = some t) :
    getSelectedNoteSequenceThemeKey (setSelectedNoteSequenceThemeKey c s (some k)) = some k ∧
    getSelectedNoteSequenceTheme (setSelectedNoteSequenceThemeKey c s (some k)) = some t ∧
    (setSelectedNoteSequenceThemeKey c s (some k)).attr = some k := by
  have hk : k ≠ "" := hWF.2 k (mem_keys_of_lookup ht)
  rw [set_some_eq c s k hk]
  by_cases ha : s.attr = some k <;>
    simp [ha, getSelectedNoteSequenceThemeKey, getSelectedNoteSequenceTheme,
      updateNoteSequenceSelectorButtonText, dispatchNoteSequenceSelectedEvent,
      themeForKey, hk, ht]

/-- Witness for C1 at the spec's concrete scenario. -/
theorem C1_set_then_get_witness :
    (CatalogWF sampleCatalog ∧
      List.lookup "ionian" (allNoteSequenceThemes sampleCatalog) = some ionianTheme) ∧
    (getSelectedNoteSequenceThemeKey
        (setSelectedNoteSequenceThemeKey sampleCatalog newNoteSequenceSelector
          (some "ionian")) = some "ionian" ∧
      getSelectedNoteSequenceTheme
        (setSelectedNoteSequenceThemeKey sampleCatalog newNoteSequenceSelector
          (some "ionian")) = some ionianTheme ∧
      (setSelectedNoteSequenceThemeKey sampleCatalog newNoteSequenceSelector
          (some "ionian")).attr = some "ionian") :=
  ⟨⟨by decide, by decide⟩,
    C1_set_then_get sampleCatalog newNoteSequenceSelector "ionian" ionianTheme
      (by decide) (by decide)⟩

/-- C2: a clearing call (property set to null, or attribute removal) leaves
the dispatched-event list unchanged, while a successful non-null selection
change — through the property setter or a host attribute write — appends
exactly one event whose payload equals the new selection state. -/
theorem C2_notification_discipline (c : Catalog) (s : SelectorState) (k : String)
    (t : NoteSequenceTheme) (hWF : CatalogWF c)
    (ht : List.lookup k (allNoteSequenceThemes c) = some t)
    (hch : s.attr ≠ some k) :
    (setSelectedNoteSequenceThemeKey c s none).events = s.events ∧
    (hostRemoveAttribute c s).events = s.events ∧
    (setSelectedNoteSequenceThemeKey c s (some k)).events = s.events ++ [(k, t)] ∧
    (setSelectedNoteSequenceThemeKey c s (some k)).selectedNoteSequenceThemeKey = some k ∧
    (setSelectedNoteSequenceThemeKey c s (some k)).selectedNoteSequenceTheme = some t ∧
    (hostSetAttribute c s k).events = s.events ++ [(k, t)] := by
  have hk : k ≠ "" := hWF.2 k (mem_keys_of_lookup ht)
  rw [set_none_eq, hostRemoveAttribute_eq, set_some_eq c s k hk,
    hostSetAttribute_eq c s k hk]
  rcases hsa : s.attr with _ | v <;>
    rw [hsa] at hch <;>
    simp [hch, updateNoteSequenceSelectorButtonText, dispatchNoteSequenceSelectedEvent,
      themeForKey, hk, ht]

/-- Witness for C2 at a concrete selection change. -/
theorem C2_notification_discipline_witness :
    (CatalogWF sampleCatalog ∧
      List.lookup "dorian" (allNoteSequenceThemes sampleCatalog) = some dorianTheme ∧
      newNoteSequenceSelector.attr ≠ some "dorian") ∧
    ((setSelectedNoteSequenceThemeKey sampleCatalog newNoteSequenceSelector
        (some "dorian")).events = newNoteSequenceSelector.events ++ [("dorian", dorianTheme)] ∧
      (hostSetAttribute sampleCatalog newNoteSequenceSelector "dorian").events =
        newNoteSequenceSelector.events ++ [("dorian", dorianTheme)]) :=
  ⟨⟨by decide, by decide, by decide⟩,
    ⟨(C2_notification_discipline sampleCatalog newNoteSequenceSelector "dorian"
        dorianTheme (by decide) (by decide) (by decide)).2.2.1,
      (C2_notification_discipline sampleCatalog newNoteSequenceSelector "dorian"
        dorianTheme (by decide) (by decide) (by decide)).2.2.2.2.2⟩⟩

/-- C3: writing to the observed attribute the value it already holds is a
complete no-op — the state, including events, warnings and the populate
count, is unchanged (the callback's old-versus-new guard stops the loop). -/
theorem C3_same_attribute_value_noop (c : Catalog) (s : SelectorState) (v : String)
    (h : s.attr = some v) : hostSetAttribute c s v = s := by
  obtain ⟨k0, t0, a0, b0, ev, w, er, pc, lb, hb, hd, hc, hcb, chk, mih, dlg⟩ := s
  simp only [SelectorState.attr] at h
  subst h
  simp [hostSetAttribute, setAttributeWith, attributeChangedCallbackF_same]

/-- Witness for C3: re-writing the already-reflected key is a no-op. -/
theorem C3_same_attribute_value_noop_witness :
    (setSelectedNoteSequenceThemeKey sampleCatalog newNoteSequenceSelector
        (some "ionian")).attr = some "ionian" ∧
    hostSetAttribute sampleCatalog
        (setSelectedNoteSequenceThemeKey sampleCatalog newNoteSequenceSelector
          (some "ionian")) "ionian" =
      setSelectedNoteSequenceThemeKey sampleCatalog newNoteSequenceSelector
        (some "ionian") :=
  ⟨by decide,
    C3_same_attribute_value_noop sampleCatalog
      (setSelectedNoteSequenceThemeKey sampleCatalog newNoteSequenceSelector
        (some "ionian")) "ionian" (by decide)⟩

/-- C4: setting the selection to null always clears the stored key, clears
the stored theme record and removes the host-observable attribute. -/
theorem C4_clear_selection (c : Catalog) (s : SelectorState) :
    (setSelectedNoteSequenceThemeKey c s none).selectedNoteSequenceThemeKey = none ∧
    (setSelectedNoteSequenceThemeKey c s none).selectedNoteSequenceTheme = none ∧
    (setSelectedNoteSequenceThemeKey c s none).attr = none := by
  rw [set_none_eq]
  rcases hsa : s.attr with _ | v <;> simp [hsa]

/-- C6 as frozen is falsified by the empty string, which is a non-null key
absent from the catalog: after a prior selection the observed attribute is
present, so reflecting the empty string removes the attribute, which
re-enters the callback with null and overwrites the stored key with null —
the stored key does not become the supplied key. -/
theorem C6_counterexample :
    List.lookup "" (allNoteSequenceThemes sampleCatalog) = none ∧
    (setSelectedNoteSequenceThemeKey sampleCatalog
        (setSelectedNoteSequenceThemeKey sampleCatalog newNoteSequenceSelector
          (some "ionian"))
        (some "")).selectedNoteSequenceThemeKey ≠ some "" := by
  decide

/-- C6 amended: for every nonempty key not present in the flattened catalog,
setting the selection to that key stores the key while the resolved theme is
null — the degraded selection is accepted, never rejected. -/
theorem C6_amended_unknown_key (c : Catalog) (s : SelectorState) (k : String)
    (hk : k ≠ "") (hl : List.lookup k (allNoteSequenceThemes c) = none) :
    (setSelectedNoteSequenceThemeKey c s (some k)).selectedNoteSequenceThemeKey = some k ∧
    (setSelectedNoteSequenceThemeKey c s (some k)).selectedNoteSequenceTheme = none := by
  rw [set_some_eq c s k hk]
  by_cases ha : s.attr = some k <;>
    simp [ha, updateNoteSequenceSelectorButtonText, dispatchNoteSequenceSelectedEvent,
      themeForKey, hk, hl]

/-- Witness for the amended C6 at the unknown key "zzz". -/
theorem C6_amended_unknown_key_witness :
    (("zzz" : String) ≠ "" ∧
      List.lookup "zzz" (allNoteSequenceThemes sampleCatalog) = none) ∧
    ((setSelectedNoteSequenceThemeKey sampleCatalog newNoteSequenceSelector
        (some "zzz")).selectedNoteSequenceThemeKey = some "zzz" ∧
      (setSelectedNoteSequenceThemeKey sampleCatalog newNoteSequenceSelector
        (some "zzz")).selectedNoteSequenceTheme = none) :=
  ⟨⟨by decide, by decide⟩,
    C6_amended_unknown_key sampleCatalog newNoteSequenceSelector "zzz"
      (by decide) (by decide)⟩

/-- C7: on a non-empty flattened catalog, the random-selection method picks a
key of the full flattened key set and invokes exactly the ordinary property
setter with it. -/
theorem C7_random_selection (c : Catalog) (s : SelectorState) (i : Nat)
    (h : i < (allNoteSequenceThemes c).length) :
    ∃ k, ((allNoteSequenceThemes c).map Prod.fst).get? i = some k ∧
      k ∈ (allNoteSequenceThemes c).map Prod.fst ∧
      setRandomNoteSequence c s i = setSelectedNoteSequenceThemeKey c s (some k) := by
  have hlen : i < ((allNoteSequenceThemes c).map Prod.fst).length := by simpa using h
  refine ⟨((allNoteSequenceThemes c).map Prod.fst).get ⟨i, hlen⟩, ?_, ?_, ?_⟩
  · exact List.get?_eq_get hlen
  · exact List.get_mem _ _ _
  · rw [setRandomNoteSequence, List.get?_eq_get hlen]

/-- Witness for C7 at index 1 of the sample catalog. -/
theorem C7_random_selection_witness :
    1 < (allNoteSequenceThemes sampleCatalog).length ∧
    ∃ k, ((allNoteSequenceThemes sampleCatalog).map Prod.fst).get? 1 = some k ∧
      k ∈ (allNoteSequenceThemes sampleCatalog).map Prod.fst ∧
      setRandomNoteSequence sampleCatalog newNoteSequenceSelector 1 =
        setSelectedNoteSequenceThemeKey sampleCatalog newNoteSequenceSelector (some k) :=
  ⟨by decide, C7_random_selection sampleCatalog newNoteSequenceSelector 1 (by decide)⟩

/-- C8: the visibility toggle broadcasts its single boolean uniformly to
every panel, so toggling true, then false, then true restores exactly the
classification every panel had after the first true. -/
theorem C8_toggle_roundtrip (s : SelectorState) (b : Bool) :
    (toggleMoreInfoChange s b).moreInfoHidden = s.moreInfoHidden.map (fun _ => !b) ∧
    (toggleMoreInfoChange (toggleMoreInfoChange (toggleMoreInfoChange s true) false)
        true).moreInfoHidden = (toggleMoreInfoChange s true).moreInfoHidden := by
  constructor <;>
    simp [toggleMoreInfoChange, updateMoreInfoVisibility, List.map_map, Function.comp]

/-- C9: when any of the four required shadow-DOM nodes is missing at attach
time, `connectedCallback` only reports the diagnostic: no listeners are
bound, the list is not built, and the state is otherwise untouched. -/
theorem C9_missing_structure_inert (c : Catalog) (s : SelectorState)
    (h : (s.hasButton && s.hasDialog && s.hasContainer && s.hasCheckbox) = false) :
    connectedCallback c s = { s with errors := s.errors + 1 } := by
  simp [connectedCallback, h]

/-- Witness for C9 on an instance missing the toggle checkbox. -/
theorem C9_missing_structure_inert_witness :
    (brokenSelector.hasButton && brokenSelector.hasDialog &&
      brokenSelector.hasContainer && brokenSelector.hasCheckbox) = false ∧
    connectedCallback sampleCatalog brokenSelector =
      { brokenSelector with errors := brokenSelector.errors + 1 } :=
  ⟨by decide, C9_missing_structure_inert sampleCatalog brokenSelector (by decide)⟩

/-- C10 as frozen is falsified on the attribute path: writing the empty
string to the observed attribute ends with a stored key of null, not the
empty string, because the truthiness-driven attribute removal re-enters the
callback with null. -/
theorem C10_counterexample :
    (hostSetAttribute sampleCatalog newNoteSequenceSelector
        "").selectedNoteSequenceThemeKey ≠ some "" := by
  decide

/-- C10 amended: setting the selection-key property to the empty string while
the observed attribute is absent is treated as a clear by truthiness: the
theme becomes null, the label resets to the placeholder and the attribute
stays removed, yet the stored key remains the empty string, so the getter
returns the empty string instead of null.  (With the attribute present, or
through the attribute path, the removal re-enters the callback with null and
the stored key ends null.) -/
theorem C10_amended_empty_string (c : Catalog) (s : SelectorState)
    (h : s.attr = none) :
    (setSelectedNoteSequenceThemeKey c s (some "")).selectedNoteSequenceThemeKey = some "" ∧
    (setSelectedNoteSequenceThemeKey c s (some "")).selectedNoteSequenceTheme = none ∧
    (setSelectedNoteSequenceThemeKey c s (some "")).buttonText = "Select Sequence" ∧
    (setSelectedNoteSequenceThemeKey c s (some "")).attr = none ∧
    getSelectedNoteSequenceThemeKey (setSelectedNoteSequenceThemeKey c s (some "")) =
      some "" := by
  rw [set_empty_eq]
  simp [h, getSelectedNoteSequenceThemeKey]

/-- Witness for the amended C10 on a fresh instance. -/
theorem C10_amended_empty_string_witness :
    newNoteSequenceSelector.attr = none ∧
    getSelectedNoteSequenceThemeKey
      (setSelectedNoteSequenceThemeKey sampleCatalog newNoteSequenceSelector
        (some "")) = some "" :=
  ⟨by decide,
    (C10_amended_empty_string sampleCatalog newNoteSequenceSelector (by decide)).2.2.2.2⟩

/-- Attribute removal with the callback wired, at any sufficient fuel: a
no-op when the attribute is absent, otherwise one clearing callback pass. -/
theorem removeAttributeWith_eq (c : Catalog) (f : Nat) (s : SelectorState) :
    removeAttributeWith (attributeChangedCallbackF c (f + 1)) s =
      match s.attr with
      | none => s
      | some _ =>
        { s with selectedNoteSequenceThemeKey := none
                 selectedNoteSequenceTheme := none
                 buttonText := "Select Sequence"
                 attr := none
                 warnings := s.warnings + 1 } := by
  obtain ⟨k0, t0, a0, b0, ev, w, er, pc, lb, hb, hd, hc, hcb, chk, mih, dlg⟩ := s
  cases a0 <;>
    simp [removeAttributeWith, attributeChangedCallbackF,
      setSelectedNoteSequenceThemeKeyWith, updateSelectedNoteSequenceAttributeWith,
      updateNoteSequenceSelectorButtonText, themeForKey,
      dispatchNoteSequenceSelectedEvent]

/-- The reflection step preserves the selection invariant: whatever attribute
state it meets, re-entering the setter only re-derives the pair from the
catalog. -/
theorem updateAttr_invariant (c : Catalog) (hWF : CatalogWF c) (f : Nat)
    (s : SelectorState) (hinv : SelectionInvariant c s) :
    SelectionInvariant c
      (updateSelectedNoteSequenceAttributeWith (attributeChangedCallbackF c (f + 1)) s) := by
  rcases hsk : s.selectedNoteSequenceThemeKey with _ | k <;>
    rcases hst : s.selectedNoteSequenceTheme with _ | t
  · simp only [updateSelectedNoteSequenceAttributeWith, hsk]
    rw [removeAttributeWith_eq]
    rcases hsa : s.attr with _ | v
    · simp [SelectionInvariant, hsk, hst]
    · simp [SelectionInvariant]
  · exact absurd hinv (by simp [SelectionInvariant, hsk, hst])
  · exact absurd hinv (by simp [SelectionInvariant, hsk, hst])
  · have hlk : List.lookup k (allNoteSequenceThemes c) = some t := by
      simpa [SelectionInvariant, hsk, hst] using hinv
    have hk : k ≠ "" := hWF.2 k (mem_keys_of_lookup hlk)
    simp only [updateSelectedNoteSequenceAttributeWith, hsk, if_neg hk,
      setAttributeWith, attributeChangedCallbackF]
    by_cases ha : s.attr = some k
    · simp [ha, SelectionInvariant, hsk, hst, hlk]
    · rw [if_neg ha, setKeyWith_some_attrEq c f _ k hk rfl]
      simp [SelectionInvariant, dispatchNoteSequenceSelectedEvent,
        updateNoteSequenceSelectorButtonText, themeForKey, hk, hlk]

/-- C5 as frozen is falsified by an unknown key: after setting the selection
to "zzz" the stored key is non-null while the stored theme record is null,
so key and theme are not both-null or both-present. -/
theorem C5_counterexample :
    ¬(((setSelectedNoteSequenceThemeKey sampleCatalog newNoteSequenceSelector
          (some "zzz")).selectedNoteSequenceThemeKey = none) ↔
      ((setSelectedNoteSequenceThemeKey sampleCatalog newNoteSequenceSelector
          (some "zzz")).selectedNoteSequenceTheme = none)) := by
  decide

/-- C5 amended: over a well-formed catalog, every state reachable through the
setter paths with inputs restricted to catalog keys or null (excluding the
unknown-key and empty-string leniencies the spec documents separately)
satisfies the invariant: key and theme are both null or both present, and
then the theme is exactly the catalog's record for the key. -/
theorem C5_amended_selection_invariant (c : Catalog) (hWF : CatalogWF c)
    (s : SelectorState) (hs : ReachableValid c s) : SelectionInvariant c s := by
  induction hs with
  | init => simp [SelectionInvariant, newNoteSequenceSelector]
  | propSetValid s k t hs ht ih =>
    have hk : k ≠ "" := hWF.2 k (mem_keys_of_lookup ht)
    rw [set_some_eq c s k hk]
    by_cases ha : s.attr = some k <;>
      simp [ha, SelectionInvariant, updateNoteSequenceSelectorButtonText,
        dispatchNoteSequenceSelectedEvent, themeForKey, hk, ht]
  | propClear s hs ih =>
    rw [set_none_eq]
    rcases hsa : s.attr with _ | v <;> simp [SelectionInvariant]
  | attrSetValid s k t hs ht ih =>
    have hk : k ≠ "" := hWF.2 k (mem_keys_of_lookup ht)
    rw [hostSetAttribute_eq c s k hk]
    by_cases ha : s.attr = some k
    · simpa [ha] using ih
    · simp [ha, SelectionInvariant, updateNoteSequenceSelectorButtonText,
        dispatchNoteSequenceSelectedEvent, themeForKey, hk, ht]
  | attrRemove s hs ih =>
    rw [hostRemoveAttribute_eq]
    rcases hsa : s.attr with _ | v
    · simpa [hsa] using ih
    · simp [hsa, SelectionInvariant]
  | click s k t hs hmem ih =>
    have hk : k ≠ "" := hWF.2 k (List.mem_map.mpr ⟨(k, t), hmem, rfl⟩)
    have ht : List.lookup k (allNoteSequenceThemes c) = some t :=
      lookup_eq_of_mem_nodup hWF.1 hmem
    rw [noteSequenceOptionClick_eq c s k t hk]
    by_cases ha : s.attr = some k <;>
      simp [ha, SelectionInvariant, closeDialog, dispatchNoteSequenceSelectedEvent,
        updateNoteSequenceSelectorButtonText, themeForKey, hk, ht]
  | random s i hs hi ih =>
    have hlen : i < ((allNoteSequenceThemes c).map Prod.fst).length := by simpa using hi
    obtain ⟨k, hg⟩ : ∃ k, ((allNoteSequenceThemes c).map Prod.fst).get? i = some k :=
      ⟨_, List.get?_eq_get hlen⟩
    have hmem : k ∈ (allNoteSequenceThemes c).map Prod.fst := List.get?_mem hg
    obtain ⟨t, ht⟩ := lookup_isSome_of_mem_keys hmem
    have hk := hWF.2 _ hmem
    rw [setRandomNoteSequence, hg, set_some_eq c s k hk]
    by_cases ha : s.attr = some k <;>
      simp [ha, SelectionInvariant, updateNoteSequenceSelectorButtonText,
        dispatchNoteSequenceSelectedEvent, themeForKey, hk, ht]
  | connect s hs ih =>
    by_cases hc : (s.hasButton && s.hasDialog && s.hasContainer && s.hasCheckbox) = true
    · have hcont : s.hasContainer = true := by
        simp only [Bool.and_eq_true] at hc
        exact hc.1.2
      have h1 : SelectionInvariant c
          (updateNoteSequenceSelectorButtonText
            (populateNoteSequences c { s with listenersBound := true })) := by
        simpa [SelectionInvariant, populateNoteSequences, hcont,
          updateNoteSequenceSelectorButtonText] using ih
      have h2 := updateAttr_invariant c hWF 3
        (updateNoteSequenceSelectorButtonText
          (populateNoteSequences c { s with listenersBound := true })) h1
      simpa [connectedCallback, hc] using h2
    · have h3 : connectedCallback c s = { s with errors := s.errors + 1 } := by
        simp only [connectedCallback, if_neg hc]
      rw [h3]
      simpa [SelectionInvariant] using ih
  | toggle s b hs ih =>
    simpa [SelectionInvariant, toggleMoreInfoChange, updateMoreInfoVisibility] using ih

/-- Witness for the amended C5 at a concrete reachable state. -/
theorem C5_amended_selection_invariant_witness :
    CatalogWF sampleCatalog ∧
    SelectionInvariant sampleCatalog
      (setSelectedNoteSequenceThemeKey sampleCatalog newNoteSequenceSelector
        (some "ionian")) :=
  ⟨by decide,
    C5_amended_selection_invariant sampleCatalog (by decide) _
      (ReachableValid.propSetValid newNoteSequenceSelector "ionian" ionianTheme
        ReachableValid.init (by decide))⟩
